import Mathlib

/-
Shallow embedding of the interception core of src/background.js
(NetCepter Pro background service worker).

State: three process-wide maps
  attachedTabs    : tabId -> session entry (modelled as the list of attached tab ids;
                    port connectedness is passed explicitly to each handler)
  pendingRequests : requestId -> stored pause event (tabId, params)
  requestData     : requestId -> stored REQUEST_INTERCEPTED snapshot

JS maps are modelled as association lists with Map.set semantics (update in
place, else append).  JS strings that are only carried around are Lean
Strings; bodies that go through btoa/encodeURIComponent are lists of UTF-16
code units (Nat), since encodability depends on the code units.  Optional or
possibly-undefined JS fields are Options.  Asynchronous transport calls that
can throw are modelled with an explicit Bool outcome parameter; thrown
exceptions caught by a surrounding try/catch become the corresponding
no-dispatch results.
-/

namespace NetCepter

/-- An HTTP header as an ordered name/value object, as used by the Fetch
domain and by the emitted headersArray. -/
structure Header where
  name : String
  value : String
deriving DecidableEq

/-- Header data arriving from the protocol or from an operator patch:
either an ordered list of name/value objects or a flat mapping
(a JS object, modelled as an association list in key-insertion order;
JS object keys are distinct, which is a hypothesis where it matters). -/
inductive HeadersVal where
  | arr (hs : List Header)
  | obj (m : List (String × String))
deriving DecidableEq

/-- The request part of a Fetch.requestPaused event. -/
structure RequestInfo where
  url : String
  method : String
  headers : Option HeadersVal
  postData : Option (List Nat)
deriving DecidableEq

/-- Parameters of a Fetch.requestPaused event. -/
structure PausedParams where
  requestId : String
  request : RequestInfo
  responseStatusCode : Option Nat
  responseHeaders : Option (List Header)
  networkId : Option String
  resourceType : Option String
deriving DecidableEq

/-- Response metadata stored by handleResponseReceived. -/
structure RespMeta where
  status : Nat
  statusText : String
  headers : List (String × String)
deriving DecidableEq

/-- The REQUEST_INTERCEPTED data object: it is both posted to the panel and
stored in requestData (where handleResponseReceived may later attach a
response field). -/
structure ReqEntry where
  requestId : String
  networkId : Option String
  url : String
  method : String
  headers : List (String × String)
  headersArray : List Header
  postData : Option (List Nat)
  resourceType : String
  timestamp : Nat
  response : Option RespMeta
deriving DecidableEq

/-- Messages posted out through the panel port. -/
inductive OutMsg where
  | debuggerAttached (tabId : Nat)
  | debuggerError (error : String)
  | debuggerDetached (reason : String)
  | requestIntercepted (e : ReqEntry)
  | responseIntercepted (requestId : String) (networkId : Option String)
      (url : String) (method : String) (status : Nat) (statusText : String)
      (headers : List Header) (resourceType : String) (timestamp : Nat)
deriving DecidableEq

/-- The Fetch.continueRequest command object; an absent field is an Option
that is none (the command object simply does not carry the key). -/
structure ContinueReqCmd where
  requestId : String
  url : Option String
  method : Option String
  headers : Option (List Header)
  postData : Option (List Nat)
deriving DecidableEq

/-- The Fetch.fulfillRequest command object; responseCode and
responseHeaders are mandatory fields of the record. -/
structure FulfillCmd where
  requestId : String
  responseCode : Nat
  responseHeaders : List Header
  body : Option (List Nat)
deriving DecidableEq

/-- Protocol commands dispatched through chrome.debugger. -/
inductive ProtoCmd where
  | attach (tabId : Nat)
  | detach (tabId : Nat)
  | networkEnable (tabId : Nat)
  | fetchEnable (tabId : Nat)
  | fetchContinueRequest (tabId : Nat) (cmd : ContinueReqCmd)
  | fetchFulfillRequest (tabId : Nat) (cmd : FulfillCmd)
  | fetchFailRequest (tabId : Nat) (requestId : String) (errorReason : String)
deriving DecidableEq

/-- A pendingRequests entry: the tab and the full pause-event params. -/
structure Pending where
  tabId : Nat
  params : PausedParams
deriving DecidableEq

/-- The background worker state: the three module-level maps. -/
structure St where
  attachedTabs : List Nat
  pendingRequests : List (String × Pending)
  requestData : List (String × ReqEntry)
deriving DecidableEq

/-- Map.set / JS object assignment: update an existing key in place,
otherwise append. -/
def setA (k : String) (v : α) : List (String × α) → List (String × α)
  | [] => [(k, v)]
  | (k2, v2) :: rest => if k2 = k then (k, v) :: rest else (k2, v2) :: setA k v rest

/-- Map.get: first entry with the key. -/
def getA (k : String) : List (String × α) → Option α
  | [] => none
  | (k2, v2) :: rest => if k2 = k then some v2 else getA k rest

/-- Map.delete: drop the entry with the key. -/
def delA (k : String) : List (String × α) → List (String × α)
  | [] => []
  | (k2, v2) :: rest => if k2 = k then rest else (k2, v2) :: delA k rest

/-- UTF-8 bytes of one Unicode code point. -/
def utf8Enc (c : Nat) : List Nat :=
  if c < 128 then [c]
  else if c < 2048 then [192 + c / 64, 128 + c % 64]
  else if c < 65536 then [224 + c / 4096, 128 + c / 64 % 64, 128 + c % 64]
  else [240 + c / 262144, 128 + c / 4096 % 64, 128 + c / 64 % 64, 128 + c % 64]

/-- UTF-8 bytes of a UTF-16 code-unit sequence.  Returns none on a lone
surrogate, exactly when encodeURIComponent throws URIError. -/
def utf8OfUnits : List Nat → Option (List Nat)
  | [] => some []
  | u :: rest =>
    if u < 55296 || 57344 ≤ u then
      match utf8OfUnits rest with
      | some bs => some (utf8Enc u ++ bs)
      | none => none
    else if u < 56320 then
      match rest with
      | [] => none
      | l :: rest2 =>
        if 56320 ≤ l && l < 57344 then
          match utf8OfUnits rest2 with
          | some bs => some (utf8Enc (65536 + (u - 55296) * 1024 + (l - 56320)) ++ bs)
          | none => none
        else none
    else none

/-- Code of the base64 alphabet character at index n. -/
def b64Code (n : Nat) : Nat :=
  if n < 26 then 65 + n
  else if n < 52 then 97 + (n - 26)
  else if n < 62 then 48 + (n - 52)
  else if n = 62 then 43
  else 47

/-- Standard base64 of a byte list, with trailing padding (61 is the pad
character code). -/
def base64Bytes : List Nat → List Nat
  | [] => []
  | [b1] => [b64Code (b1 / 4), b64Code (b1 % 4 * 16), 61, 61]
  | [b1, b2] => [b64Code (b1 / 4), b64Code (b1 % 4 * 16 + b2 / 16), b64Code (b2 % 16 * 4), 61]
  | b1 :: b2 :: b3 :: rest =>
    b64Code (b1 / 4) :: b64Code (b1 % 4 * 16 + b2 / 16) ::
      b64Code (b2 % 16 * 4 + b3 / 64) :: b64Code (b3 % 64) :: base64Bytes rest

/-- btoa: base64 of a string all of whose code units are bytes; throws
(none) when some unit exceeds 255. -/
def btoaOpt (units : List Nat) : Option (List Nat) :=
  if units.all (fun u => u < 256) then some (base64Bytes units) else none

/-- btoa(unescape(encodeURIComponent(s))): base64 of the UTF-8 bytes of s;
fails exactly when s contains a lone surrogate. -/
def encodeUtf8B64 (units : List Nat) : Option (List Nat) :=
  match utf8OfUnits units with
  | some bs => some (base64Bytes bs)
  | none => none

/-- The fixed status-code table of getStatusText; unknown codes map to
Unknown. -/
def getStatusText (code : Nat) : String :=
  match code with
  | 200 => "OK"
  | 201 => "Created"
  | 204 => "No Content"
  | 301 => "Moved Permanently"
  | 302 => "Found"
  | 304 => "Not Modified"
  | 400 => "Bad Request"
  | 401 => "Unauthorized"
  | 403 => "Forbidden"
  | 404 => "Not Found"
  | 500 => "Internal Server Error"
  | 502 => "Bad Gateway"
  | 503 => "Service Unavailable"
  | _ => "Unknown"

/-- JS truthiness of the responseStatusCode field: present and nonzero. -/
def isTruthyStatus : Option Nat → Bool
  | some c => c != 0
  | none => false

/-- headersObj built from an ordered header list in handleRequestPaused:
forEach over the list, assigning headersObj of header.name when header.name
is truthy (nonempty) and header.value is defined (a String value always
is). -/
def headersObjOfArr (hs : List Header) : List (String × String) :=
  hs.foldl (fun acc h => if h.name != "" then setA h.name h.value acc else acc) []

/-- headersArray built from a flat mapping in handleRequestPaused:
Object.entries mapped to name/value objects. -/
def headersArrOfObj (m : List (String × String)) : List Header :=
  m.map (fun p => Header.mk p.1 p.2)

/-- The headers normalization of handleRequestPaused: absent headers give
the empty object and list; an array is kept as headersArray and folded into
headersObj; a mapping is kept as headersObj and mapped into headersArray. -/
def normalizeHeaders : Option HeadersVal → List (String × String) × List Header
  | none => ([], [])
  | some (HeadersVal.arr hs) => (headersObjOfArr hs, hs)
  | some (HeadersVal.obj m) => (m, headersArrOfObj m)

/-- The REQUEST_INTERCEPTED data object built (and stored in requestData)
by the request branch of handleRequestPaused. -/
def pausedRequestEntry (p : PausedParams) (now : Nat) : ReqEntry :=
  let hs := normalizeHeaders p.request.headers
  { requestId := p.requestId
    networkId := p.networkId
    url := p.request.url
    method := p.request.method
    headers := hs.1
    headersArray := hs.2
    postData := p.request.postData
    resourceType := p.resourceType.getD "other"
    timestamp := now
    response := none }

/-- handleRequestPaused: store the pause event, then classify on JS
truthiness of responseStatusCode.  The response branch posts a
RESPONSE_INTERCEPTED message; the request branch stores the data object in
requestData and posts it as REQUEST_INTERCEPTED.  When the port throws
disconnected on postMessage, the tab is removed from attachedTabs (the
requestData write has already happened by then). -/
def handleRequestPaused (st : St) (tabId : Nat) (p : PausedParams) (now : Nat)
    (portConnected : Bool) : St × List OutMsg :=
  let st1 : St := { st with pendingRequests := setA p.requestId (Pending.mk tabId p) st.pendingRequests }
  if isTruthyStatus p.responseStatusCode then
    let msg := OutMsg.responseIntercepted p.requestId p.networkId p.request.url
      p.request.method (p.responseStatusCode.getD 0)
      (getStatusText (p.responseStatusCode.getD 0)) (p.responseHeaders.getD [])
      (p.resourceType.getD "other") now
    if portConnected then (st1, [msg])
    else ({ st1 with attachedTabs := st1.attachedTabs.erase tabId }, [])
  else
    let entry := pausedRequestEntry p now
    let st2 : St := { st1 with requestData := setA p.requestId entry st1.requestData }
    if portConnected then (st2, [OutMsg.requestIntercepted entry])
    else ({ st2 with attachedTabs := st2.attachedTabs.erase tabId }, [])

/-- handleResponseReceived: if a matching requestData entry exists, attach
the response metadata to it; nothing else is touched and nothing is
posted. -/
def handleResponseReceived (st : St) (requestId : String) (resp : RespMeta) : St :=
  match getA requestId st.requestData with
  | some e => { st with requestData := setA requestId { e with response := some resp } st.requestData }
  | none => st

/-- The modifications object of a CONTINUE_REQUEST message; an Option field
that is none is an absent key. -/
structure ReqMods where
  url : Option String
  method : Option String
  headers : Option HeadersVal
  postData : Option (List Nat)
deriving DecidableEq

/-- The header normalization of continueRequest: an array keeps entries
with a truthy name and defined value; a mapping is filtered on truthy keys
and each name and value is trimmed. -/
def modsHeadersList : HeadersVal → List Header
  | HeadersVal.arr hs => hs.filter (fun h => h.name != "")
  | HeadersVal.obj m =>
    (m.filter (fun p => p.1 != "")).map (fun p => Header.mk p.1.trim p.2.trim)

/-- The Fetch.continueRequest command built by continueRequest: url and
method are copied when truthy (nonempty), headers whenever the key is
present, postData when present and one of the two base64 encodings
succeeds (the second encoding attempt has its own try/catch, so a double
failure only drops the field). -/
def buildContinueReqCmd (requestId : String) : Option ReqMods → ContinueReqCmd
  | none =>
    { requestId := requestId, url := none, method := none, headers := none, postData := none }
  | some m =>
    { requestId := requestId
      url := match m.url with
        | some u => if u != "" then some u else none
        | none => none
      method := match m.method with
        | some v => if v != "" then some v else none
        | none => none
      headers := m.headers.map modsHeadersList
      postData := match m.postData with
        | none => none
        | some b =>
          match encodeUtf8B64 b with
          | some e => some e
          | none =>
            match btoaOpt b with
            | some e => some e
            | none => none }

/-- continueRequest: unknown id is a logged no-op; otherwise the command is
dispatched and, on transport success, the exchange is deleted from
pendingRequests (the catch branch only logs, leaving the store intact). -/
def continueRequest (st : St) (requestId : String) (mods : Option ReqMods)
    (dispatchOk : Bool) : St × List ProtoCmd :=
  match getA requestId st.pendingRequests with
  | none => (st, [])
  | some pending =>
    let calls := [ProtoCmd.fetchContinueRequest pending.tabId (buildContinueReqCmd requestId mods)]
    if dispatchOk then
      ({ st with pendingRequests := delA requestId st.pendingRequests }, calls)
    else (st, calls)

/-- The modifications object of a CONTINUE_RESPONSE message. -/
structure RespMods where
  responseCode : Option Nat
  responseHeaders : Option (List Header)
  body : Option (List Nat)
deriving DecidableEq

/-- The mandatory part of the Fetch.fulfillRequest command: responseCode is
params.responseStatusCode when truthy else 200, responseHeaders is
params.responseHeaders when truthy else the empty list. -/
def fulfillBase (requestId : String) (params : PausedParams) : FulfillCmd :=
  { requestId := requestId
    responseCode := match params.responseStatusCode with
      | some c => if c != 0 then c else 200
      | none => 200
    responseHeaders := params.responseHeaders.getD []
    body := none }

/-- Modification application of continueResponse: responseCode overrides
when truthy, responseHeaders when present (a list is always truthy), and a
supplied body is encoded UTF-8-first with a direct btoa fallback.  The
fallback btoa call is NOT wrapped in its own try/catch: when it also
throws, the exception escapes to the outer handler, so none here means the
whole command is abandoned. -/
def applyRespMods (c : FulfillCmd) (m : RespMods) : Option FulfillCmd :=
  let c1 := match m.responseCode with
    | some v => if v != 0 then { c with responseCode := v } else c
    | none => c
  let c2 := match m.responseHeaders with
    | some hs => { c1 with responseHeaders := hs }
    | none => c1
  match m.body with
  | none => some c2
  | some b =>
    match encodeUtf8B64 b with
    | some e => some { c2 with body := some e }
    | none =>
      match btoaOpt b with
      | some e => some { c2 with body := some e }
      | none => none

/-- The Fetch.fulfillRequest command continueResponse attempts to dispatch;
none when body encoding fails twice and the exception aborts the try
block. -/
def buildFulfillCmd (requestId : String) (params : PausedParams) :
    Option RespMods → Option FulfillCmd
  | none => some (fulfillBase requestId params)
  | some m => applyRespMods (fulfillBase requestId params) m

/-- continueResponse: unknown id is a logged no-op; a double body-encoding
failure throws before sendCommand, so nothing is dispatched and the store
is untouched; otherwise the fulfill command is dispatched and, on transport
success, the exchange is deleted. -/
def continueResponse (st : St) (requestId : String) (mods : Option RespMods)
    (dispatchOk : Bool) : St × List ProtoCmd :=
  match getA requestId st.pendingRequests with
  | none => (st, [])
  | some pending =>
    match buildFulfillCmd requestId pending.params mods with
    | none => (st, [])
    | some cmd =>
      let calls := [ProtoCmd.fetchFulfillRequest pending.tabId cmd]
      if dispatchOk then
        ({ st with pendingRequests := delA requestId st.pendingRequests }, calls)
      else (st, calls)

/-- blockRequest: unknown id is a logged no-op; otherwise Fetch.failRequest
with the fixed BlockedByClient reason is dispatched and, on transport
success, the exchange is deleted. -/
def blockRequest (st : St) (requestId : String) (dispatchOk : Bool) : St × List ProtoCmd :=
  match getA requestId st.pendingRequests with
  | none => (st, [])
  | some pending =>
    let calls := [ProtoCmd.fetchFailRequest pending.tabId requestId "BlockedByClient"]
    if dispatchOk then
      ({ st with pendingRequests := delA requestId st.pendingRequests }, calls)
    else (st, calls)

/-- attachDebugger: an already-attached tab only gets a DEBUGGER_ATTACHED
acknowledgment (and is dropped from the registry when the ack delivery
throws); a fresh tab goes through attach, Network.enable and Fetch.enable,
is registered, and acknowledged; an attach failure posts DEBUGGER_ERROR. -/
def attachDebugger (st : St) (tabId : Nat) (portConnected : Bool) (attachOk : Bool) :
    St × List ProtoCmd × List OutMsg :=
  if st.attachedTabs.contains tabId then
    if portConnected then (st, [], [OutMsg.debuggerAttached tabId])
    else ({ st with attachedTabs := st.attachedTabs.erase tabId }, [], [])
  else if attachOk then
    let calls := [ProtoCmd.attach tabId, ProtoCmd.networkEnable tabId, ProtoCmd.fetchEnable tabId]
    if portConnected then
      ({ st with attachedTabs := st.attachedTabs ++ [tabId] }, calls, [OutMsg.debuggerAttached tabId])
    else (st, calls ++ [ProtoCmd.detach tabId], [])
  else (st, [ProtoCmd.attach tabId], [OutMsg.debuggerError "attach"])

/-- detachDebugger: no-op when the tab is not registered; otherwise the
protocol detach is dispatched and, on success, the tab is unregistered and
BOTH pendingRequests and requestData are cleared entirely (the clear calls
are global, not per tab); a transport failure is only logged and changes
nothing. -/
def detachDebugger (st : St) (tabId : Nat) (detachOk : Bool) : St × List ProtoCmd :=
  if st.attachedTabs.contains tabId then
    if detachOk then
      ({ attachedTabs := st.attachedTabs.erase tabId, pendingRequests := [], requestData := [] },
        [ProtoCmd.detach tabId])
    else (st, [ProtoCmd.detach tabId])
  else (st, [])

/-- The chrome.debugger.onDetach listener: a registered tab gets a
best-effort DEBUGGER_DETACHED message and is unregistered; in every case
both pendingRequests and requestData are cleared entirely. -/
def onDetach (st : St) (tabId : Nat) (reason : String) : St × List OutMsg :=
  if st.attachedTabs.contains tabId then
    ({ attachedTabs := st.attachedTabs.erase tabId, pendingRequests := [], requestData := [] },
      [OutMsg.debuggerDetached reason])
  else ({ st with pendingRequests := [], requestData := [] }, [])

/-! Concrete fixtures used by witnesses and counterexamples. -/

/-- A request descriptor with no headers and no body. -/
def reqInfoEx : RequestInfo :=
  { url := "https://api.example.com/x", method := "GET", headers := none, postData := none }

/-- A state with one attached tab and empty stores. -/
def stBase : St := { attachedTabs := [1], pendingRequests := [], requestData := [] }

/-- A pause event that carries responseStatusCode zero. -/
def pZero : PausedParams :=
  { requestId := "r0", request := reqInfoEx, responseStatusCode := some 0,
    responseHeaders := some [], networkId := none, resourceType := none }

/-- A response-stage pause event with status 404. -/
def pResp : PausedParams :=
  { requestId := "r9", request := reqInfoEx, responseStatusCode := some 404,
    responseHeaders := some [Header.mk "X" "Y"], networkId := none, resourceType := some "xhr" }

/-- A request-stage pause event (no status code). -/
def pGet : PausedParams :=
  { requestId := "r3", request := reqInfoEx, responseStatusCode := none,
    responseHeaders := none, networkId := none, resourceType := none }

/-- A response-stage pause event with captured status 200 and one header. -/
def pOk200 : PausedParams :=
  { requestId := "r1", request := reqInfoEx, responseStatusCode := some 200,
    responseHeaders := some [Header.mk "X" "Y"], networkId := none, resourceType := none }

/-- Store holding the zero-status exchange. -/
def stZero : St :=
  { attachedTabs := [1], pendingRequests := [("r0", Pending.mk 1 pZero)], requestData := [] }

/-- Store holding the request-stage exchange. -/
def stGet : St :=
  { attachedTabs := [1], pendingRequests := [("r3", Pending.mk 1 pGet)], requestData := [] }

/-- Store holding the 200-status exchange. -/
def stOk200 : St :=
  { attachedTabs := [1], pendingRequests := [("r1", Pending.mk 1 pOk200)], requestData := [] }

/-- Two attached tabs; the only stored exchange belongs to tab 2. -/
def pTabTwo : PausedParams :=
  { requestId := "rA", request := reqInfoEx, responseStatusCode := none,
    responseHeaders := none, networkId := none, resourceType := none }

/-- State with tabs 1 and 2 attached and an exchange pending for tab 2. -/
def stTwoTabs : St :=
  { attachedTabs := [1, 2], pendingRequests := [("rA", Pending.mk 2 pTabTwo)], requestData := [] }

end NetCepter

namespace NetCepter

/-! Helper lemmas about the association-list operations. -/

/-- A key that is not among the keys of an association list is not found. -/
theorem getA_notMem (k : String) (l : List (String × α)) (h : k ∉ l.map Prod.fst) :
    getA k l = none := by
  induction l with
  | nil => rfl
  | cons p rest ih =>
    obtain ⟨k2, v2⟩ := p
    simp only [List.map_cons, List.mem_cons, not_or] at h
    have hne : ¬k2 = k := fun hkk => h.1 hkk.symm
    simp [getA, hne, ih h.2]

/-- After deleting a key from a list with distinct keys, the key is gone. -/
theorem getA_delA (k : String) (l : List (String × α)) (h : (l.map Prod.fst).Nodup) :
    getA k (delA k l) = none := by
  induction l with
  | nil => rfl
  | cons p rest ih =>
    obtain ⟨k2, v2⟩ := p
    simp only [List.map_cons, List.nodup_cons] at h
    by_cases hk : k2 = k
    · subst hk
      simp only [delA, if_pos rfl]
      exact getA_notMem k2 rest h.1
    · simp [delA, hk, getA, ih h.2]

/-- JS object assignment of a fresh key appends the pair. -/
theorem setA_notMem (k : String) (v : α) (l : List (String × α)) (h : k ∉ l.map Prod.fst) :
    setA k v l = l ++ [(k, v)] := by
  induction l with
  | nil => rfl
  | cons p rest ih =>
    obtain ⟨k2, v2⟩ := p
    simp only [List.map_cons, List.mem_cons, not_or] at h
    have hne : ¬k2 = k := fun hkk => h.1 hkk.symm
    simp [setA, hne, ih h.2]

/-- The headersObj fold over a mapping-derived header list appends the
mapping to the accumulator when keys are nonempty, distinct, and fresh. -/
theorem foldAssign_append (m : List (String × String)) (acc : List (String × String))
    (hkeys : ∀ p ∈ m, p.1 ≠ "")
    (hdisj : ∀ p ∈ m, p.1 ∉ acc.map Prod.fst)
    (hnd : (m.map Prod.fst).Nodup) :
    (headersArrOfObj m).foldl
      (fun a h => if h.name != "" then setA h.name h.value a else a) acc = acc ++ m := by
  induction m generalizing acc with
  | nil => simp [headersArrOfObj]
  | cons p rest ih =>
    obtain ⟨k, v⟩ := p
    have hk : k ≠ "" := hkeys (k, v) (List.mem_cons_self _ _)
    have hkacc : k ∉ acc.map Prod.fst := hdisj (k, v) (List.mem_cons_self _ _)
    simp only [List.map_cons, List.nodup_cons] at hnd
    simp only [headersArrOfObj, List.map_cons, List.foldl_cons]
    rw [if_pos (bne_iff_ne.mpr hk)]
    rw [setA_notMem k v acc hkacc]
    have hrest := ih (acc ++ [(k, v)])
      (fun p hp => hkeys p (List.mem_cons_of_mem _ hp))
      (fun p hp => by
        simp only [List.map_append, List.mem_append, List.map_cons, List.map_nil,
          List.mem_singleton, not_or]
        exact ⟨hdisj p (List.mem_cons_of_mem _ hp),
          fun hpk => hnd.1 (hpk ▸ List.mem_map_of_mem Prod.fst hp)⟩)
      hnd.2
    simp only [headersArrOfObj] at hrest
    rw [hrest]
    simp

/-! Claim C1. -/

/-- Claim C1 counterexample: a pause event that carries a response status
code equal to zero is classified as a request interception (a single
REQUEST_INTERCEPTED message, no RESPONSE_INTERCEPTED message), so
classification does depend on the numeric value of the carried status
code. -/
theorem c1_zero_status_counterexample :
    pZero.responseStatusCode.isSome = true ∧
    (handleRequestPaused stBase 1 pZero 5 true).2 =
      [OutMsg.requestIntercepted (pausedRequestEntry pZero 5)] := by
  exact ⟨rfl, rfl⟩

/-- Claim C1 (amended): classification follows JS truthiness of the status
code field.  A pause event with a nonzero status code emits exactly one
RESPONSE_INTERCEPTED message carrying the numeric status and its
looked-up status text and no REQUEST_INTERCEPTED message; a pause event
whose status code is absent or zero emits exactly one REQUEST_INTERCEPTED
message. -/
theorem c1_classification (st : St) (tabId : Nat) (p : PausedParams) (now : Nat) :
    (∀ c, p.responseStatusCode = some c → c ≠ 0 →
      (handleRequestPaused st tabId p now true).2 =
        [OutMsg.responseIntercepted p.requestId p.networkId p.request.url p.request.method
          c (getStatusText c) (p.responseHeaders.getD []) (p.resourceType.getD "other") now]) ∧
    ((p.responseStatusCode = none ∨ p.responseStatusCode = some 0) →
      (handleRequestPaused st tabId p now true).2 =
        [OutMsg.requestIntercepted (pausedRequestEntry p now)]) := by
  constructor
  · intro c hc hne
    simp [handleRequestPaused, isTruthyStatus, hc, hne]
  · rintro (hc | hc) <;> simp [handleRequestPaused, isTruthyStatus, hc]

/-- Witness for c1_classification at a concrete 404 response pause. -/
theorem c1_classification_witness :
    (handleRequestPaused stBase 1 pResp 7 true).2 =
      [OutMsg.responseIntercepted pResp.requestId pResp.networkId pResp.request.url
        pResp.request.method 404 (getStatusText 404) (pResp.responseHeaders.getD [])
        (pResp.resourceType.getD "other") 7] :=
  (c1_classification stBase 1 pResp 7).1 404 rfl (by decide)

/-! Claim C2. -/

/-- Claim C2 counterexample: on a stored exchange whose captured
responseStatusCode is zero, ContinueResponse with no patch dispatches
responseCode 200, not the captured status, because the default uses JS
truthiness (params.responseStatusCode or-else 200). -/
theorem c2_zero_status_counterexample :
    pZero.responseStatusCode = some 0 ∧
    (continueResponse stZero "r0" none true).2 =
      [ProtoCmd.fetchFulfillRequest 1 (FulfillCmd.mk "r0" 200 [] none)] := by
  exact ⟨rfl, rfl⟩

/-- Claim C2 (amended): the dispatched fulfill command always carries
responseCode and responseHeaders (they are mandatory fields of the
command); when the patch supplies no override and the captured status code
is nonzero, responseCode is the captured status and responseHeaders is the
captured header list. -/
theorem c2_fulfill_defaults (st : St) (rid : String) (pend : Pending) (c : Nat)
    (hs : List Header) (m : Option RespMods) (ok : Bool)
    (hlook : getA rid st.pendingRequests = some pend)
    (hc : pend.params.responseStatusCode = some c) (hcne : c ≠ 0)
    (hh : pend.params.responseHeaders = some hs)
    (hm : m = none ∨ m = some (RespMods.mk none none none)) :
    (continueResponse st rid m ok).2 =
      [ProtoCmd.fetchFulfillRequest pend.tabId (FulfillCmd.mk rid c hs none)] := by
  rcases hm with rfl | rfl <;>
    simp [continueResponse, hlook, buildFulfillCmd, fulfillBase, applyRespMods, hc, hcne, hh] <;>
    cases ok <;> simp

/-- Witness for c2_fulfill_defaults: the spec scenario with captured status
200 and headers X:Y and no patch dispatches responseCode 200 and the same
header list. -/
theorem c2_fulfill_defaults_witness :
    (continueResponse stOk200 "r1" none true).2 =
      [ProtoCmd.fetchFulfillRequest 1 (FulfillCmd.mk "r1" 200 [Header.mk "X" "Y"] none)] :=
  c2_fulfill_defaults stOk200 "r1" (Pending.mk 1 pOk200) 200 [Header.mk "X" "Y"] none true
    rfl rfl (by decide) rfl (Or.inl rfl)

/-! Claim C3. -/

/-- Claim C3 counterexample: a patch whose url field is present but holds
the empty string is dropped from the dispatched continue-request command
(JS truthiness of modifications.url), so the command does not contain
exactly the fields present in the patch. -/
theorem c3_empty_url_counterexample :
    (ReqMods.mk (some "") none none none).url.isSome = true ∧
    (continueRequest stGet "r3" (some (ReqMods.mk (some "") none none none)) true).2 =
      [ProtoCmd.fetchContinueRequest 1 (ContinueReqCmd.mk "r3" none none none none)] := by
  exact ⟨rfl, rfl⟩

/-- Claim C3 (amended): the dispatched continue-request command carries,
besides the exchange id, exactly these fields: url when the patch supplies
a nonempty url, method when it supplies a nonempty method, headers exactly
when the patch's headers key is present, and postData when a body is
present and at least one of the two base64 encodings succeeds; kept url
and method values are copied unchanged. -/
theorem c3_resume_payload (st : St) (rid : String) (pend : Pending) (m : ReqMods) (ok : Bool)
    (hlook : getA rid st.pendingRequests = some pend) :
    (continueRequest st rid (some m) ok).2 =
      [ProtoCmd.fetchContinueRequest pend.tabId (buildContinueReqCmd rid (some m))] ∧
    ((buildContinueReqCmd rid (some m)).url.isSome ↔ ∃ u, m.url = some u ∧ u ≠ "") ∧
    ((buildContinueReqCmd rid (some m)).method.isSome ↔ ∃ v, m.method = some v ∧ v ≠ "") ∧
    ((buildContinueReqCmd rid (some m)).headers.isSome ↔ m.headers.isSome) ∧
    ((buildContinueReqCmd rid (some m)).postData.isSome ↔
      ∃ b, m.postData = some b ∧ ((encodeUtf8B64 b).isSome ∨ (btoaOpt b).isSome)) ∧
    (∀ u, m.url = some u → u ≠ "" → (buildContinueReqCmd rid (some m)).url = some u) ∧
    (∀ v, m.method = some v → v ≠ "" → (buildContinueReqCmd rid (some m)).method = some v) := by
  refine ⟨?_, ?_, ?_, ?_, ?_, ?_, ?_⟩
  · simp [continueRequest, hlook]
    cases ok <;> simp
  · cases hm : m.url with
    | none => simp [buildContinueReqCmd, hm]
    | some u =>
      by_cases hu : u = "" <;> simp [buildContinueReqCmd, hm, hu]
  · cases hm : m.method with
    | none => simp [buildContinueReqCmd, hm]
    | some v =>
      by_cases hv : v = "" <;> simp [buildContinueReqCmd, hm, hv]
  · cases hm : m.headers with
    | none => simp [buildContinueReqCmd, hm]
    | some hv => simp [buildContinueReqCmd, hm]
  · cases hm : m.postData with
    | none => simp [buildContinueReqCmd, hm]
    | some b =>
      cases he : encodeUtf8B64 b with
      | some e => simp [buildContinueReqCmd, hm, he]
      | none =>
        cases hb : btoaOpt b with
        | some e => simp [buildContinueReqCmd, hm, he, hb]
        | none => simp [buildContinueReqCmd, hm, he, hb]
  · intro u hu hune
    simp [buildContinueReqCmd, hu, hune]
  · intro v hv hvne
    simp [buildContinueReqCmd, hv, hvne]

/-- Witness for c3_resume_payload: the spec scenario, a patch holding only
method POST on a stored GET exchange yields a dispatched command with
method POST and no url, headers, or postData fields. -/
theorem c3_resume_payload_witness :
    (continueRequest stGet "r3" (some (ReqMods.mk none (some "POST") none none)) true).2 =
      [ProtoCmd.fetchContinueRequest 1 (ContinueReqCmd.mk "r3" none (some "POST") none none)] := by
  have h := c3_resume_payload stGet "r3" (Pending.mk 1 pGet)
    (ReqMods.mk none (some "POST") none none) true rfl
  rw [h.1]
  rfl

/-! Claim C4. -/

/-- Claim C4: when the exchange is stored, a failed transport dispatch
leaves all state unchanged (the exchange stays unresolved); a successful
dispatch of continue, fulfill, or fail removes exactly that exchange from
pendingRequests (for continueResponse, provided a command was dispatched at
all); and once the id is gone from the store, every further resume or
block is a no-op, so the exchange is removed at most once. -/
theorem c4_remove_once (st : St) (rid : String) (mods : Option ReqMods)
    (rmods : Option RespMods)
    (hpresent : (getA rid st.pendingRequests).isSome = true) :
    ((continueRequest st rid mods false).1 = st ∧
     (continueResponse st rid rmods false).1 = st ∧
     (blockRequest st rid false).1 = st) ∧
    ((continueRequest st rid mods true).2 ≠ [] ∧
     (continueRequest st rid mods true).1.pendingRequests = delA rid st.pendingRequests) ∧
    ((blockRequest st rid true).2 ≠ [] ∧
     (blockRequest st rid true).1.pendingRequests = delA rid st.pendingRequests) ∧
    ((continueResponse st rid rmods true).2 = [] → (continueResponse st rid rmods true).1 = st) ∧
    ((continueResponse st rid rmods true).2 ≠ [] →
     (continueResponse st rid rmods true).1.pendingRequests = delA rid st.pendingRequests) ∧
    (∀ st2 : St, getA rid st2.pendingRequests = none →
      continueRequest st2 rid mods true = (st2, []) ∧
      continueResponse st2 rid rmods true = (st2, []) ∧
      blockRequest st2 rid true = (st2, [])) := by
  obtain ⟨pend, hpend⟩ := Option.isSome_iff_exists.mp hpresent
  refine ⟨⟨?_, ?_, ?_⟩, ⟨?_, ?_⟩, ⟨?_, ?_⟩, ?_, ?_, ?_⟩
  · simp [continueRequest, hpend]
  · cases hb : buildFulfillCmd rid pend.params rmods <;>
      simp [continueResponse, hpend, hb]
  · simp [blockRequest, hpend]
  · simp [continueRequest, hpend]
  · simp [continueRequest, hpend]
  · simp [blockRequest, hpend]
  · simp [blockRequest, hpend]
  · cases hb : buildFulfillCmd rid pend.params rmods <;>
      simp [continueResponse, hpend, hb]
  · cases hb : buildFulfillCmd rid pend.params rmods <;>
      simp [continueResponse, hpend, hb]
  · intro st2 habs
    exact ⟨by simp [continueRequest, habs], by simp [continueResponse, habs],
      by simp [blockRequest, habs]⟩

/-- Witness for c4_remove_once at a concrete store: a successful continue
empties the store, a failed one leaves it intact, and a block on the
already-emptied store is a no-op. -/
theorem c4_remove_once_witness :
    (continueRequest stGet "r3" none true).1.pendingRequests = [] ∧
    (continueRequest stGet "r3" none false).1 = stGet ∧
    blockRequest (St.mk [1] [] []) "r3" true = (St.mk [1] [] [], []) := by
  have h := c4_remove_once stGet "r3" none none rfl
  refine ⟨?_, h.1.1, ?_⟩
  · rw [h.2.1.2]
    rfl
  · exact (h.2.2.2.2.2 (St.mk [1] [] []) rfl).2.2

/-! Claim C5. -/

/-- Claim C5 counterexample: a body consisting of a single lone surrogate
code unit defeats the UTF-8 path and the direct btoa fallback; in
continueResponse the second failure is not caught by an inner handler, so
the exception aborts the try block and NO fulfill command is dispatched at
all (the claim says the command would still be dispatched with the body
omitted), and the exchange stays in the store. -/
theorem c5_double_failure_counterexample :
    encodeUtf8B64 [55296] = none ∧ btoaOpt [55296] = none ∧
    (getA "r3" stGet.pendingRequests).isSome = true ∧
    continueResponse stGet "r3" (some (RespMods.mk none none (some [55296]))) true =
      (stGet, []) := by
  exact ⟨rfl, rfl, rfl, rfl⟩

/-- Claim C5 (amended): a supplied ContinueResponse body is base64-encoded
trying the UTF-8-safe path first and a direct base64 encoding on failure,
as in ContinueRequest; but when both encodings fail, the fulfill command is
not dispatched at all (the exchange stays stored) instead of being
dispatched without the body field. -/
theorem c5_body_fallback (st : St) (rid : String) (pend : Pending) (m : RespMods)
    (b : List Nat) (ok : Bool)
    (hlook : getA rid st.pendingRequests = some pend) (hb : m.body = some b) :
    (∀ e, encodeUtf8B64 b = some e →
      ∃ c, buildFulfillCmd rid pend.params (some m) = some c ∧ c.body = some e ∧
        (continueResponse st rid (some m) ok).2 = [ProtoCmd.fetchFulfillRequest pend.tabId c]) ∧
    (encodeUtf8B64 b = none → ∀ e, btoaOpt b = some e →
      ∃ c, buildFulfillCmd rid pend.params (some m) = some c ∧ c.body = some e ∧
        (continueResponse st rid (some m) ok).2 = [ProtoCmd.fetchFulfillRequest pend.tabId c]) ∧
    (encodeUtf8B64 b = none → btoaOpt b = none →
      continueResponse st rid (some m) ok = (st, [])) := by
  refine ⟨?_, ?_, ?_⟩
  · intro e he
    refine ⟨?_, ?_, ?_, ?_⟩
    · exact (applyRespMods (fulfillBase rid pend.params) m).getD (fulfillBase rid pend.params)
    all_goals simp [continueResponse, hlook, buildFulfillCmd, applyRespMods, hb, he]
    cases ok <;> simp
  · intro he e hbt
    refine ⟨?_, ?_, ?_, ?_⟩
    · exact (applyRespMods (fulfillBase rid pend.params) m).getD (fulfillBase rid pend.params)
    all_goals simp [continueResponse, hlook, buildFulfillCmd, applyRespMods, hb, he, hbt]
    cases ok <;> simp
  · intro he hbt
    simp [continueResponse, hlook, buildFulfillCmd, applyRespMods, hb, he, hbt]

/-- Witness for c5_body_fallback: an ASCII body hi encodes through the
UTF-8 path and is dispatched as the base64 aGk= inside the fulfill
command. -/
theorem c5_body_fallback_witness :
    ∃ c, buildFulfillCmd "r1" pOk200 (some (RespMods.mk none none (some [104, 105]))) = some c ∧
      c.body = some [97, 71, 107, 61] ∧
      (continueResponse stOk200 "r1" (some (RespMods.mk none none (some [104, 105]))) true).2 =
        [ProtoCmd.fetchFulfillRequest 1 c] :=
  (c5_body_fallback stOk200 "r1" (Pending.mk 1 pOk200)
    (RespMods.mk none none (some [104, 105])) [104, 105] true rfl rfl).1
    [97, 71, 107, 61] rfl

/-! Claim C6. -/

/-- Claim C6: a ContinueRequest, ContinueResponse, or Block command whose
exchange id is not in pendingRequests issues no transport command and
leaves the state untouched (the source only logs and returns). -/
theorem c6_unknown_id_noop (st : St) (rid : String) (mods : Option ReqMods)
    (rmods : Option RespMods) (ok : Bool)
    (habsent : getA rid st.pendingRequests = none) :
    continueRequest st rid mods ok = (st, []) ∧
    continueResponse st rid rmods ok = (st, []) ∧
    blockRequest st rid ok = (st, []) := by
  exact ⟨by simp [continueRequest, habsent], by simp [continueResponse, habsent],
    by simp [blockRequest, habsent]⟩

/-- Witness for c6_unknown_id_noop: a Block on an empty store is a no-op
with no transport call. -/
theorem c6_unknown_id_noop_witness :
    continueRequest stBase "zz" none true = (stBase, []) ∧
    continueResponse stBase "zz" none true = (stBase, []) ∧
    blockRequest stBase "zz" true = (stBase, []) :=
  c6_unknown_id_noop stBase "zz" none none true rfl

/-! Claim C7. -/

/-- Claim C7 counterexample: with tabs 1 and 2 attached and an exchange
stored for tab 2, detaching tab 1 clears the whole store, discarding
tab 2's exchange even though tab 2's session survives; cleanup is global,
not per target. -/
theorem c7_global_clear_counterexample :
    stTwoTabs.attachedTabs = [1, 2] ∧
    (getA "rA" stTwoTabs.pendingRequests).isSome = true ∧
    (getA "rA" stTwoTabs.pendingRequests).map Pending.tabId = some 2 ∧
    (detachDebugger stTwoTabs 1 true).1.attachedTabs = [2] ∧
    (detachDebugger stTwoTabs 1 true).1.pendingRequests = [] := by
  exact ⟨rfl, rfl, rfl, rfl, rfl⟩

/-- Claim C7 (amended): when a session is destroyed by a successful
explicit detach or by an involuntary detach event, only that target's
registry entry is removed, but pendingRequests and requestData are cleared
in their entirety: every stored exchange of every target is discarded, not
only those of the destroyed session's target. -/
theorem c7_teardown_clears_all (st : St) (tabId : Nat) (reason : String)
    (h : st.attachedTabs.contains tabId = true) :
    (detachDebugger st tabId true).1 = St.mk (st.attachedTabs.erase tabId) [] [] ∧
    (onDetach st tabId reason).1 = St.mk (st.attachedTabs.erase tabId) [] [] := by
  have hmem : tabId ∈ st.attachedTabs := by simpa using h
  constructor <;> simp [detachDebugger, onDetach, hmem]

/-- Witness for c7_teardown_clears_all on the two-tab state. -/
theorem c7_teardown_clears_all_witness :
    (detachDebugger stTwoTabs 1 true).1 = St.mk [2] [] [] ∧
    (onDetach stTwoTabs 1 "target_closed").1 = St.mk [2] [] [] :=
  c7_teardown_clears_all stTwoTabs 1 "target_closed" rfl

/-! Claim C8. -/

/-- Claim C8 counterexample: the mapping with a single empty-name key loses
its pair on the round trip, because the list-to-mapping direction skips
entries whose name is falsy: the result is the empty mapping though the
original holds the pair. -/
theorem c8_roundtrip_counterexample :
    headersObjOfArr (headersArrOfObj [("", "v")]) = [] ∧
    ("", "v") ∈ [("", "v")] := by
  exact ⟨rfl, by decide⟩

/-- Claim C8 (amended): for every header mapping whose keys are distinct
and nonempty, converting the mapping to an ordered name/value list and
back yields the original mapping exactly (hence, in particular,
order-insensitively); an entry with an empty name is dropped by the
list-to-mapping direction. -/
theorem c8_roundtrip (m : List (String × String))
    (hkeys : ∀ p ∈ m, p.1 ≠ "") (hnd : (m.map Prod.fst).Nodup) :
    headersObjOfArr (headersArrOfObj m) = m := by
  have h := foldAssign_append m [] hkeys (by simp) hnd
  simpa [headersObjOfArr] using h

/-- Witness for c8_roundtrip on a concrete two-entry mapping. -/
theorem c8_roundtrip_witness :
    headersObjOfArr (headersArrOfObj [("Content-Type", "text/html"), ("X", "Y")]) =
      [("Content-Type", "text/html"), ("X", "Y")] :=
  c8_roundtrip [("Content-Type", "text/html"), ("X", "Y")] (by decide) (by decide)

/-! Claim C9. -/

/-- Claim C9: an ATTACH_DEBUGGER command for a tab that is already in the
registry posts only a DEBUGGER_ATTACHED acknowledgment: no protocol call
of any kind is made, the state (in particular the registry) is unchanged,
no error message is posted, and distinctness of the registered tabs (at
most one session per target) is preserved. -/
theorem c9_attach_idempotent (st : St) (tabId : Nat) (attachOk : Bool)
    (h : st.attachedTabs.contains tabId = true) :
    attachDebugger st tabId true attachOk = (st, [], [OutMsg.debuggerAttached tabId]) ∧
    (st.attachedTabs.Nodup → (attachDebugger st tabId true attachOk).1.attachedTabs.Nodup) := by
  have hmem : tabId ∈ st.attachedTabs := by simpa using h
  have hmain : attachDebugger st tabId true attachOk = (st, [], [OutMsg.debuggerAttached tabId]) := by
    simp [attachDebugger, hmem]
  exact ⟨hmain, fun hnd => by rw [hmain]; exact hnd⟩

/-- Witness for c9_attach_idempotent on the one-tab state. -/
theorem c9_attach_idempotent_witness :
    attachDebugger stBase 1 true true = (stBase, [], [OutMsg.debuggerAttached 1]) ∧
    (stBase.attachedTabs.Nodup → (attachDebugger stBase 1 true true).1.attachedTabs.Nodup) :=
  c9_attach_idempotent stBase 1 true rfl

/-! Claim C10. -/

/-- Claim C10: handleResponseReceived touches only requestData, never
pendingRequests or attachedTabs, and the fulfill command later dispatched
by continueResponse is identical whether or not the responseReceived event
was processed first. -/
theorem c10_responseReceived_isolated (st : St) (rid rid2 : String) (resp : RespMeta)
    (mods : Option RespMods) (ok : Bool) :
    (handleResponseReceived st rid resp).pendingRequests = st.pendingRequests ∧
    (handleResponseReceived st rid resp).attachedTabs = st.attachedTabs ∧
    (continueResponse (handleResponseReceived st rid resp) rid2 mods ok).2 =
      (continueResponse st rid2 mods ok).2 := by
  cases hg : getA rid st.requestData with
  | none => simp [handleResponseReceived, hg]
  | some e =>
    refine ⟨by simp [handleResponseReceived, hg], by simp [handleResponseReceived, hg], ?_⟩
    cases h2 : getA rid2 st.pendingRequests with
    | none => simp [continueResponse, handleResponseReceived, hg, h2]
    | some pending =>
      cases hb : buildFulfillCmd rid2 pending.params mods with
      | none => simp [continueResponse, handleResponseReceived, hg, h2, hb]
      | some cmd =>
        cases ok <;> simp [continueResponse, handleResponseReceived, hg, h2, hb]

end NetCepter
